import Mathlib

/-!
Verification of the client-side authentication session module (src/client/jwt.ts)
and the server-side CORS origin gatekeeper of the OpenFrontIO repository.

The TypeScript source is shallowly embedded as pure Lean functions with explicit
state passing:

- ClientState models the persistent token store (localStorage key "token") and
  the module-level memo variable holding the cached session answer.
- Env models the ambient computed values of the module: platform (native or web),
  the computed API base URL, the computed audience, the current epoch time in
  seconds, and the jose decodeJwt function (decoding is an external library, so
  it is a parameter mapping token strings to decoded payloads; a decoding
  exception is the none case).
- Effects counts the observable side channels a validation call can emit:
  how many token decodes happened, how many logout POST requests were started
  and how many background refresh tasks were dispatched.
- Network responses are parameters of the functions that await them, since the
  embedding is of a single event-loop turn with explicit continuation data.
-/

namespace OpenFrontAuth

/-- Decoded JWT payload as used by the module: the four registered claims it
reads, plus the verdict of the TokenPayloadSchema shape validation.
The shapeOk field is modelled from the spec: TokenPayloadSchema lives in
core/ApiSchemas which is outside the sources; the spec says the decoded payload
is validated against the expected claim shape, so the verdict is carried as a
boolean field of the payload. -/
structure Payload where
  iss : Option String
  aud : Option String
  exp : Option Int
  iat : Option Int
  shapeOk : Bool
deriving DecidableEq, Repr

/-- Result type of isLoggedIn: either false (none) or the token with its
decoded claims. -/
abbrev IsLoggedInResponse := Option (String × Payload)

/-- The mutable client state of the module: the localStorage token entry and
the module-level memo variable (none models the undefined, not-yet-computed
state; some none models false; some (some r) models a cached authenticated
answer). -/
structure ClientState where
  storedToken : Option String
  memo : Option IsLoggedInResponse
deriving DecidableEq, Repr

/-- Ambient environment of the module: platform flag, the computed API base,
the computed audience and current time, and the decodeJwt library function
(none when decoding throws). -/
structure Env where
  isNative : Bool
  apiBase : String
  audience : String
  now : Int
  decode : String → Option Payload

/-- Side-effect counters observable from one validation call. -/
structure Effects where
  decodes : Nat
  logoutPosts : Nat
  refreshDispatches : Nat
deriving DecidableEq, Repr

/-- A network request started by the logout flow: which endpoint was hit and
which bearer token was attached. -/
structure NetRequest where
  endpoint : String
  bearer : String
deriving DecidableEq, Repr

/-- Javascript string truthiness for an optional string: null or undefined and
the empty string are falsy. -/
def truthy : Option String → Bool
  | none => false
  | some s => s != ""

/-- The URL fragment as seen by getToken: whether location.hash starts with a
hash sign, and the value of the token query parameter inside it (none when the
parameter is absent). -/
structure WindowHash where
  present : Bool
  tokenParam : Option String
deriving DecidableEq, Repr

/-- A window location with no fragment. -/
def noHash : WindowHash := ⟨false, none⟩

/-- getToken: when the fragment is present and carries a truthy token
parameter, store it; then return the stored token. -/
def getToken (h : WindowHash) (s : ClientState) : ClientState × Option String :=
  let s1 :=
    if h.present then
      match h.tokenParam with
      | some t => if t != "" then { s with storedToken := some t } else s
      | none => s
    else s
  (s1, s1.storedToken)

/-- The synchronous prefix of logOut as it runs when invoked fire-and-forget
from inside the claim validator: read the stored token; when absent do
nothing; otherwise remove it, set the memo to false, and start one POST to the
logout (or revoke) endpoint carrying the old token. -/
def logOutBegin (allSessions : Bool) (s : ClientState) :
    ClientState × Option NetRequest :=
  match s.storedToken with
  | none => (s, none)
  | some tok =>
    ({ s with storedToken := none, memo := some none },
      some ⟨if allSessions then "/revoke" else "/logout", tok⟩)

/-- logOut in full, with the awaited fetch response supplied as the responseOk
parameter: returns the new state, the request that was started (none when no
token was present), and the return value of the function (none models the bare
return of undefined on the no-token path). -/
def logOut (allSessions : Bool) (responseOk : Bool) (s : ClientState) :
    ClientState × Option NetRequest × Option Bool :=
  match s.storedToken with
  | none => (s, none, none)
  | some tok =>
    ({ s with storedToken := none, memo := some none },
      some ⟨if allSessions then "/revoke" else "/logout", tok⟩,
      some responseOk)

/-- Whether the exp check of the validator fires: exp is defined and now is at
or past it. -/
def expired (env : Env) (p : Payload) : Bool :=
  match p.exp with
  | some e => decide (e ≤ env.now)
  | none => false

/-- The refresh age constant of the validator: six hours in seconds. -/
def refreshAge : Int := 6 * 3600

/-- Whether the refresh trigger of the validator fires: iat is defined and now
is at or past iat plus the refresh age. -/
def refreshDue (env : Env) (p : Payload) : Bool :=
  match p.iat with
  | some i => decide (i + refreshAge ≤ env.now)
  | none => false

/-- Validation result bundle: the state after the call, the emitted effects
and the returned value. -/
structure LoginResult where
  state : ClientState
  effects : Effects
  result : IsLoggedInResponse
deriving DecidableEq, Repr

/-- Count a started request. -/
def countReq : Option NetRequest → Nat
  | none => 0
  | some _ => 1

/-- The checks of the claim validator that follow the issuer check, in source
order: audience, expiry — each failure runs the synchronous part of logOut and
returns false; then the fire-and-forget refresh dispatch when the token is old
enough; then the payload shape validation, whose failure returns false without
logout; otherwise the token and claims. -/
def checkClaimsAfterIssuer (env : Env) (tok : String) (p : Payload)
    (s : ClientState) : LoginResult :=
  if p.aud ≠ some env.audience then
    let r := logOutBegin false s
    ⟨r.1, ⟨0, countReq r.2, 0⟩, none⟩
  else if expired env p then
    let r := logOutBegin false s
    ⟨r.1, ⟨0, countReq r.2, 0⟩, none⟩
  else
    let rd := if refreshDue env p then 1 else 0
    if p.shapeOk = false then ⟨s, ⟨0, 0, rd⟩, none⟩
    else ⟨s, ⟨0, 0, rd⟩, some (tok, p)⟩

/-- The body of the claim validator after a successful decode: the issuer
check, which only fires in a web context and fails with a fire-and-forget
logout, followed by the remaining checks. -/
def checkClaims (env : Env) (tok : String) (p : Payload) (s : ClientState) :
    LoginResult :=
  if p.iss ≠ some env.apiBase ∧ env.isNative = false then
    let r := logOutBegin false s
    ⟨r.1, ⟨0, countReq r.2, 0⟩, none⟩
  else checkClaimsAfterIssuer env tok p s

/-- The uncached validator: read the token (consuming a fragment token if one
is present), return false when absent, decode it (a decode exception is caught
and yields false), then run the claim checks. -/
def _isLoggedIn (env : Env) (h : WindowHash) (s : ClientState) : LoginResult :=
  let g := getToken h s
  match g.2 with
  | none => ⟨g.1, ⟨0, 0, 0⟩, none⟩
  | some tok =>
    match env.decode tok with
    | none => ⟨g.1, ⟨1, 0, 0⟩, none⟩
    | some p =>
      let r := checkClaims env tok p g.1
      ⟨r.state, ⟨1, r.effects.logoutPosts, r.effects.refreshDispatches⟩,
        r.result⟩

/-- isLoggedIn: return the memoized answer when one is cached; otherwise run
the validator and store its answer in the memo (the assignment happens after
the validator returns, so it overwrites any memo value the validator wrote
through logOut). -/
def isLoggedIn (env : Env) (h : WindowHash) (s : ClientState) : LoginResult :=
  match s.memo with
  | some r => ⟨s, ⟨0, 0, 0⟩, r⟩
  | none =>
    let r := _isLoggedIn env h s
    ⟨{ r.state with memo := some r.result }, r.effects, r.result⟩

/-- Outcome of parsing the body of a 200 refresh response: the json call threw,
the RefreshResponseSchema validation failed, or it yielded a token. The schema
is modelled from the spec: RefreshResponseSchema lives in core/ApiSchemas which
is outside the sources; the spec says a 200 response is validated against a
schema yielding a record with a token string. -/
inductive RefreshBody where
  | jsonThrew
  | schemaFail
  | ok (token : String)
deriving DecidableEq, Repr

/-- Outcome of the refresh fetch: the fetch rejected, or it resolved with a
status code and a body. -/
inductive RefreshFetch where
  | threw
  | resp (status : Nat) (body : RefreshBody)
deriving DecidableEq, Repr

/-- postRefresh: read the token (false when absent), POST to the refresh
endpoint; a thrown fetch or body read sets the memo to false inside the catch
block; a non-200 status or a schema failure just returns false; success stores
the replacement token and returns true. -/
def postRefresh (h : WindowHash) (f : RefreshFetch) (s : ClientState) :
    ClientState × Bool :=
  let g := getToken h s
  match g.2 with
  | none => (g.1, false)
  | some _ =>
    match f with
    | .threw => ({ g.1 with memo := some none }, false)
    | .resp status body =>
      if status != 200 then (g.1, false)
      else
        match body with
        | .jsonThrew => ({ g.1 with memo := some none }, false)
        | .schemaFail => (g.1, false)
        | .ok t => ({ g.1 with storedToken := some t }, true)

/-- The query parameters the native callback listener reads from the opened
URL (null when absent, possibly the empty string when present but empty). -/
structure UrlParams where
  code : Option String
  state : Option String
  error : Option String
deriving DecidableEq, Repr

/-- Outcome of the mobile-callback exchange POST: the fetch threw, the response
was not ok (the handler then throws into its outer catch), or the response was
ok with an optional token field in the json body. -/
inductive ExchangeOutcome where
  | threw
  | notOk
  | okToken (token : Option String)
deriving DecidableEq, Repr

/-- Observable outcome of one appUrlOpen event: the state afterwards, whether
the exchange POST was issued, whether the embedded browser was closed, and
whether the app navigated to its origin. -/
structure CallbackResult where
  state : ClientState
  exchangePosted : Bool
  browserClosed : Bool
  navigated : Bool
deriving DecidableEq, Repr

/-- The appUrlOpen listener body registered by initializeAuthListener. The
parsed parameter is none when the URL constructor throws (the outer catch then
closes the browser). A truthy error parameter closes the browser and stops.
Truthy code and state parameters trigger the exchange POST: a thrown fetch or
a non-ok response reach the outer catch which closes the browser; an ok
response with a truthy token stores it, resets the memo to undefined, closes
the browser and navigates; an ok response without one just closes the browser.
Any other combination of parameters does nothing. -/
def appUrlOpenHandler (parsed : Option UrlParams) (ex : ExchangeOutcome)
    (s : ClientState) : CallbackResult :=
  match parsed with
  | none => ⟨s, false, true, false⟩
  | some u =>
    if truthy u.error then ⟨s, false, true, false⟩
    else if truthy u.code && truthy u.state then
      match ex with
      | .threw => ⟨s, true, true, false⟩
      | .notOk => ⟨s, true, true, false⟩
      | .okToken tk =>
        match tk with
        | some t =>
          if t != "" then
            ⟨{ s with storedToken := some t, memo := none }, true, true, true⟩
          else ⟨s, true, true, false⟩
        | none => ⟨s, true, true, false⟩
    else ⟨s, false, false, false⟩

/-- The CORS allow-list as built at server start: the canonical origin from the
configuration, the two fixed production origins, and, in the development
environment only, one origin derived from the local network address when one
could be determined. -/
def allowedOrigins (configOrigin : String) (isDev : Bool)
    (localIp : Option String) : List String :=
  [configOrigin, "capacitor://openfront.io", "https://openfront.io"] ++
    (if isDev then
      match localIp with
      | some ip => ["http://" ++ ip ++ ":9000"]
      | none => []
    else [])

/-- The origin callback of corsOptions: a falsy origin (header absent, or the
empty string) is allowed; an origin found in the allow-list is allowed; any
other origin yields an error. -/
def corsOriginDecision (allowed : List String) (origin : Option String) :
    Except String Bool :=
  match origin with
  | none => Except.ok true
  | some o =>
    if o = "" then Except.ok true
    else if o ∈ allowed then Except.ok true
    else Except.error "Not allowed by CORS"

/-- Outcome of the CORS middleware for one request. -/
inductive CorsOutcome where
  | allowed (credentials : Bool)
  | rejected (msg : String)
deriving DecidableEq, Repr

/-- Modelled from the spec: the cors middleware built from corsOptions is an
external library; per the spec it allows a request its origin callback
accepts, marking the response credential-bearing-compatible because the
options carry credentials true, and rejects with the callback error
otherwise. -/
def corsMiddleware (allowed : List String) (origin : Option String) :
    CorsOutcome :=
  match corsOriginDecision allowed origin with
  | Except.ok _ => CorsOutcome.allowed true
  | Except.error e => CorsOutcome.rejected e

/-! Concrete sample values used by the witness and counterexample theorems. -/

/-- Sample decode function: one known token string decodes to the given
payload, everything else throws. -/
def mkDecode (p : Payload) : String → Option Payload :=
  fun t => if t = "tok0" then some p else none

/-- Sample environment around a given payload. -/
def mkEnv (native : Bool) (now : Int) (p : Payload) : Env :=
  ⟨native, "https://api.openfront.io", "openfront.io", now, mkDecode p⟩

/-- A payload whose claims match the sample environment and that is neither
expired nor due for refresh at time 1000. -/
def pGood : Payload :=
  ⟨some "https://api.openfront.io", some "openfront.io", some 100000, some 900,
    true⟩

/-- A payload already past its exp at time 100. -/
def pExpired : Payload :=
  ⟨some "https://api.openfront.io", some "openfront.io", some 50, none, true⟩

/-- A payload whose iss does not match the sample environment. -/
def pBadIss : Payload :=
  ⟨some "https://evil.example", some "openfront.io", some 100000, none, true⟩

/-- A payload older than the refresh age at time 21600 but far from expiry. -/
def pStale : Payload :=
  ⟨some "https://api.openfront.io", some "openfront.io", some 100000, some 0,
    true⟩

/-- A payload passing every claim check but failing the shape validation. -/
def pBadShape : Payload :=
  ⟨some "https://api.openfront.io", some "openfront.io", some 100000, none,
    false⟩

/-- A client state holding the sample token with the memo not yet computed. -/
def sFresh : ClientState := ⟨some "tok0", none⟩

/-- A client state holding the sample token with an authenticated answer
already memoized. -/
def sAuth : ClientState := ⟨some "tok0", some (some ("tok0", pGood))⟩

/-- The allow-list of a production configuration. -/
def allowedSample : List String :=
  allowedOrigins "https://api.openfront.io" false none

/-- After any isLoggedIn call the memo holds exactly the returned answer. -/
theorem isLoggedIn_memo_holds_result (env : Env) (h : WindowHash)
    (s : ClientState) :
    (isLoggedIn env h s).state.memo = some (isLoggedIn env h s).result := by
  cases hm : s.memo <;> simp [isLoggedIn, hm]

/-- Claim C7: calling isLoggedIn twice without an intervening store mutation
or invalidation returns the identical memoized result, leaves the state
untouched and performs no additional token decode on the second call. -/
theorem isLoggedIn_memoized_idempotent (env : Env) (h : WindowHash)
    (s : ClientState) :
    (isLoggedIn env h (isLoggedIn env h s).state).result =
      (isLoggedIn env h s).result ∧
    (isLoggedIn env h (isLoggedIn env h s).state).state =
      (isLoggedIn env h s).state ∧
    (isLoggedIn env h (isLoggedIn env h s).state).effects.decodes = 0 := by
  have hm := isLoggedIn_memo_holds_result env h s
  refine ⟨?_, ?_, ?_⟩ <;>
    · conv_lhs => rw [isLoggedIn]
      simp [hm]

/-- Claim C1: for every stored token whose decoded claims contain an exp field
with the current time at or past it, isLoggedIn with the memo unset returns
false, removes the token from the store, memoizes the logged-out answer and
starts exactly one logout POST. -/
theorem isLoggedIn_expired_clears_and_logs_out (env : Env) (s : ClientState)
    (tok : String) (p : Payload) (e : Int)
    (hmemo : s.memo = none) (htok : s.storedToken = some tok)
    (hdec : env.decode tok = some p) (hexp : p.exp = some e)
    (hnow : e ≤ env.now) :
    (isLoggedIn env noHash s).result = none ∧
    (isLoggedIn env noHash s).state.storedToken = none ∧
    (isLoggedIn env noHash s).state.memo = some none ∧
    (isLoggedIn env noHash s).effects.logoutPosts = 1 := by
  have hget : getToken noHash s = (s, s.storedToken) := rfl
  have hexp' : expired env p = true := by
    simp [expired, hexp, hnow]
  simp only [isLoggedIn, hmemo]
  simp only [_isLoggedIn, hget, htok, hdec]
  unfold checkClaims checkClaimsAfterIssuer
  by_cases h1 : p.iss ≠ some env.apiBase ∧ env.isNative = false
  · simp [h1, logOutBegin, htok, countReq]
  · by_cases h2 : p.aud ≠ some env.audience
    · simp [h1, h2, logOutBegin, htok, countReq]
    · simp [h1, h2, hexp', logOutBegin, htok, countReq]

/-- Witness for C1 at a concrete expired token. -/
theorem isLoggedIn_expired_witness :
    (isLoggedIn (mkEnv false 100 pExpired) noHash sFresh).result = none ∧
    (isLoggedIn (mkEnv false 100 pExpired) noHash sFresh).state.storedToken
      = none ∧
    (isLoggedIn (mkEnv false 100 pExpired) noHash sFresh).state.memo
      = some none ∧
    (isLoggedIn (mkEnv false 100 pExpired) noHash sFresh).effects.logoutPosts
      = 1 :=
  isLoggedIn_expired_clears_and_logs_out (mkEnv false 100 pExpired) sFresh
    "tok0" pExpired 50 rfl rfl (by decide) rfl (by decide)

/-- Claim C2: a stored token whose iss claim differs from the computed API
base makes validation in a web context fail with exactly one logout POST and
the token removed; in a native context the issuer check is skipped and the
validation is exactly the sequence of later checks. -/
theorem issuer_mismatch_web_fails_native_skips (env : Env) (s : ClientState)
    (tok : String) (p : Payload)
    (htok : s.storedToken = some tok) (hdec : env.decode tok = some p)
    (hiss : p.iss ≠ some env.apiBase) :
    (env.isNative = false →
      (_isLoggedIn env noHash s).result = none ∧
      (_isLoggedIn env noHash s).effects.logoutPosts = 1 ∧
      (_isLoggedIn env noHash s).state.storedToken = none) ∧
    (env.isNative = true →
      checkClaims env tok p s = checkClaimsAfterIssuer env tok p s) := by
  constructor
  · intro hweb
    have hget : getToken noHash s = (s, s.storedToken) := rfl
    simp only [_isLoggedIn, hget, htok, hdec]
    unfold checkClaims
    have h1 : p.iss ≠ some env.apiBase ∧ env.isNative = false := ⟨hiss, hweb⟩
    simp [h1, logOutBegin, htok, countReq]
  · intro hnat
    simp [checkClaims, hnat]

/-- Witness for C2 at a concrete web environment with a wrong issuer. -/
theorem issuer_mismatch_witness :
    (_isLoggedIn (mkEnv false 100 pBadIss) noHash sFresh).result = none ∧
    (_isLoggedIn (mkEnv false 100 pBadIss) noHash sFresh).effects.logoutPosts
      = 1 ∧
    (_isLoggedIn (mkEnv false 100 pBadIss) noHash sFresh).state.storedToken
      = none :=
  (issuer_mismatch_web_fails_native_skips (mkEnv false 100 pBadIss) sFresh
    "tok0" pBadIss rfl (by decide) (by decide)).1 rfl

/-- Claim C3: a stored token that decodes, passes the issuer and audience
checks and is not expired, but whose iat is at least six hours in the past,
still validates as authenticated (given the shape check passes), dispatches
exactly one background refresh, starts no logout POST, and leaves the state
untouched by the validation call itself. -/
theorem stale_token_authenticated_refresh_dispatched (env : Env)
    (s : ClientState) (tok : String) (p : Payload) (i : Int)
    (htok : s.storedToken = some tok) (hdec : env.decode tok = some p)
    (hiss : p.iss = some env.apiBase ∨ env.isNative = true)
    (haud : p.aud = some env.audience)
    (hexp : ∀ e : Int, p.exp = some e → env.now < e)
    (hiat : p.iat = some i) (hage : i + refreshAge ≤ env.now)
    (hshape : p.shapeOk = true) :
    (_isLoggedIn env noHash s).result = some (tok, p) ∧
    (_isLoggedIn env noHash s).effects.refreshDispatches = 1 ∧
    (_isLoggedIn env noHash s).effects.logoutPosts = 0 ∧
    (_isLoggedIn env noHash s).state = s := by
  have hget : getToken noHash s = (s, s.storedToken) := rfl
  have h1 : ¬(p.iss ≠ some env.apiBase ∧ env.isNative = false) := by
    rcases hiss with h | h <;> simp [h]
  have h2 : ¬(p.aud ≠ some env.audience) := by simp [haud]
  have hexp' : expired env p = false := by
    cases hpe : p.exp with
    | none => simp [expired, hpe]
    | some e =>
      have := hexp e hpe
      simp [expired, hpe]
      omega
  have hrd : refreshDue env p = true := by
    simp [refreshDue, hiat]
    omega
  simp only [_isLoggedIn, hget, htok, hdec]
  unfold checkClaims checkClaimsAfterIssuer
  simp [h1, h2, hexp', hrd, hshape]

/-- Witness for C3 at a concrete stale but valid token. -/
theorem stale_token_witness :
    (_isLoggedIn (mkEnv false 21600 pStale) noHash sFresh).result
      = some ("tok0", pStale) ∧
    (_isLoggedIn (mkEnv false 21600 pStale) noHash
      sFresh).effects.refreshDispatches = 1 ∧
    (_isLoggedIn (mkEnv false 21600 pStale) noHash
      sFresh).effects.logoutPosts = 0 ∧
    (_isLoggedIn (mkEnv false 21600 pStale) noHash sFresh).state = sFresh :=
  stale_token_authenticated_refresh_dispatched (mkEnv false 21600 pStale)
    sFresh "tok0" pStale 0 rfl (by decide) (Or.inl rfl) rfl
    (by intro e he; simp [pStale] at he; simp [mkEnv]; omega) rfl (by decide)
    rfl

/-- Claim C8: a stored token that decodes and passes the issuer, audience and
expiry checks but fails the payload shape validation makes validation return
false without triggering the logout flow: no logout POST is started and the
state, token store included, is untouched. -/
theorem shape_mismatch_fails_without_logout (env : Env) (s : ClientState)
    (tok : String) (p : Payload)
    (htok : s.storedToken = some tok) (hdec : env.decode tok = some p)
    (hiss : p.iss = some env.apiBase ∨ env.isNative = true)
    (haud : p.aud = some env.audience)
    (hexp : ∀ e : Int, p.exp = some e → env.now < e)
    (hshape : p.shapeOk = false) :
    (_isLoggedIn env noHash s).result = none ∧
    (_isLoggedIn env noHash s).effects.logoutPosts = 0 ∧
    (_isLoggedIn env noHash s).state = s ∧
    (_isLoggedIn env noHash s).state.storedToken = some tok := by
  have hget : getToken noHash s = (s, s.storedToken) := rfl
  have h1 : ¬(p.iss ≠ some env.apiBase ∧ env.isNative = false) := by
    rcases hiss with h | h <;> simp [h]
  have h2 : ¬(p.aud ≠ some env.audience) := by simp [haud]
  have hexp' : expired env p = false := by
    cases hpe : p.exp with
    | none => simp [expired, hpe]
    | some e =>
      have := hexp e hpe
      simp [expired, hpe]
      omega
  simp only [_isLoggedIn, hget, htok, hdec]
  unfold checkClaims checkClaimsAfterIssuer
  simp [h1, h2, hexp', hshape, htok]

/-- Witness for C8 at a concrete token with an unexpected payload shape. -/
theorem shape_mismatch_witness :
    (_isLoggedIn (mkEnv false 100 pBadShape) noHash sFresh).result = none ∧
    (_isLoggedIn (mkEnv false 100 pBadShape) noHash
      sFresh).effects.logoutPosts = 0 ∧
    (_isLoggedIn (mkEnv false 100 pBadShape) noHash sFresh).state = sFresh ∧
    (_isLoggedIn (mkEnv false 100 pBadShape) noHash sFresh).state.storedToken
      = some "tok0" :=
  shape_mismatch_fails_without_logout (mkEnv false 100 pBadShape) sFresh
    "tok0" pBadShape rfl (by decide) (Or.inl rfl) rfl
    (by intro e he; simp [pBadShape] at he; simp [mkEnv]; omega) rfl

/-- Claim C9: a logout call with no token in the store, for either value of
allSessions, is a no-op: the state is unchanged, no network request is
started, and the call returns the bare undefined, which is neither the success
nor the failure value. -/
theorem logOut_no_token_noop (allSessions responseOk : Bool)
    (s : ClientState) (h : s.storedToken = none) :
    logOut allSessions responseOk s = (s, none, none) := by
  simp [logOut, h]

/-- Witness for C9 on an empty store. -/
theorem logOut_no_token_witness :
    logOut true true ⟨none, none⟩ = (⟨none, none⟩, none, none) :=
  logOut_no_token_noop true true ⟨none, none⟩ rfl

/-- Claim C10: a native callback URL event whose parsed URL has no error
parameter and lacks the code parameter or the state parameter leaves the
handler inert: no exchange POST, no state change, and the embedded browser is
not closed. -/
theorem callback_incomplete_params_noop (u : UrlParams)
    (ex : ExchangeOutcome) (s : ClientState)
    (herr : u.error = none) (hcs : u.code = none ∨ u.state = none) :
    appUrlOpenHandler (some u) ex s = ⟨s, false, false, false⟩ := by
  rcases hcs with hc | hs
  · simp [appUrlOpenHandler, herr, hc, truthy]
  · simp [appUrlOpenHandler, herr, hs, truthy]

/-- Witness for C10 at a URL carrying only a state parameter. -/
theorem callback_incomplete_witness :
    appUrlOpenHandler (some ⟨none, some "st", none⟩)
      (ExchangeOutcome.okToken (some "x")) sFresh
      = ⟨sFresh, false, false, false⟩ :=
  callback_incomplete_params_noop ⟨none, some "st", none⟩
    (ExchangeOutcome.okToken (some "x")) sFresh rfl (Or.inl rfl)

/-- Counterexample to claim C4 as stated: a successful refresh stores the
replacement token and returns true, yet the memo is not reset to the
not-yet-computed state — here it still holds the stale authenticated answer,
and the next isLoggedIn call performs no decode and returns the old token. -/
theorem postRefresh_success_memo_not_reset :
    (postRefresh noHash (RefreshFetch.resp 200 (RefreshBody.ok "new"))
      sAuth).2 = true ∧
    (postRefresh noHash (RefreshFetch.resp 200 (RefreshBody.ok "new"))
      sAuth).1.storedToken = some "new" ∧
    (postRefresh noHash (RefreshFetch.resp 200 (RefreshBody.ok "new"))
      sAuth).1.memo ≠ none ∧
    (isLoggedIn (mkEnv false 1000 pGood) noHash
      (postRefresh noHash (RefreshFetch.resp 200 (RefreshBody.ok "new"))
        sAuth).1).effects.decodes = 0 ∧
    (isLoggedIn (mkEnv false 1000 pGood) noHash
      (postRefresh noHash (RefreshFetch.resp 200 (RefreshBody.ok "new"))
        sAuth).1).result = some ("tok0", pGood) := by
  refine ⟨rfl, rfl, by decide, rfl, rfl⟩

/-- Claim C4 as amended: after every successful refresh call the replacement
token is stored and the call returns true, but the memo of the session cache
is left exactly as it was — it is not reset to the not-yet-computed state, so
the next isLoggedIn call does not recompute through the claim validator. -/
theorem postRefresh_success_stores_token_memo_unchanged (s : ClientState)
    (tok t : String) (htok : s.storedToken = some tok) :
    postRefresh noHash (RefreshFetch.resp 200 (RefreshBody.ok t)) s
      = ({ s with storedToken := some t }, true) := by
  have hget : getToken noHash s = (s, s.storedToken) := rfl
  simp [postRefresh, hget, htok]

/-- Witness for the amended C4 at a concrete state. -/
theorem postRefresh_success_witness :
    postRefresh noHash (RefreshFetch.resp 200 (RefreshBody.ok "new")) sAuth
      = ({ sAuth with storedToken := some "new" }, true) :=
  postRefresh_success_stores_token_memo_unchanged sAuth "tok0" "new" rfl

/-- Counterexample to claim C5 as stated: when the refresh endpoint answers
500 the call resolves to false and the store is untouched, but the session
cache does not subsequently report logged-out — the memoized authenticated
answer survives and the next isLoggedIn call still reports logged-in. -/
theorem postRefresh_non200_memo_survives :
    (postRefresh noHash (RefreshFetch.resp 500 (RefreshBody.ok "new"))
      sAuth).2 = false ∧
    (postRefresh noHash (RefreshFetch.resp 500 (RefreshBody.ok "new"))
      sAuth).1 = sAuth ∧
    (isLoggedIn (mkEnv false 1000 pGood) noHash
      (postRefresh noHash (RefreshFetch.resp 500 (RefreshBody.ok "new"))
        sAuth).1).result = some ("tok0", pGood) := by
  refine ⟨rfl, rfl, rfl⟩

/-- Claim C5 as amended: a non-200 refresh response makes the call resolve to
false with the whole client state unchanged — token store untouched and the
session cache memo exactly as before, so it subsequently reports whatever was
memoized before the call; the memo is forced to logged-out only when the fetch
itself throws. -/
theorem postRefresh_non200_state_unchanged (status : Nat)
    (body : RefreshBody) (s : ClientState) (tok : String)
    (htok : s.storedToken = some tok) (hstatus : status ≠ 200) :
    postRefresh noHash (RefreshFetch.resp status body) s = (s, false) := by
  have hget : getToken noHash s = (s, s.storedToken) := rfl
  simp [postRefresh, hget, htok, hstatus]

/-- Witness for the amended C5 at a concrete 500 response. -/
theorem postRefresh_non200_witness :
    postRefresh noHash (RefreshFetch.resp 500 (RefreshBody.ok "new")) sAuth
      = (sAuth, false) :=
  postRefresh_non200_state_unchanged 500 (RefreshBody.ok "new") sAuth "tok0"
    rfl (by decide)

/-- Counterexample to claim C6 as stated: an Origin header that is present but
empty is not a member of the allow-list, yet the gatekeeper allows the
request instead of rejecting it, because the code treats any falsy origin
value like an absent header. -/
theorem cors_empty_origin_allowed :
    (some "" ≠ (none : Option String)) ∧
    "" ∉ allowedSample ∧
    corsMiddleware allowedSample (some "") = CorsOutcome.allowed true := by
  refine ⟨by decide, by decide, rfl⟩

/-- Claim C6 as amended: a request with no Origin header, or with an empty
Origin value, is allowed; an Origin that is an exact member of the allow-list
is allowed and the response is marked credential-bearing-compatible; every
other Origin is rejected with the authorization error. -/
theorem cors_decision_cases (cfg : String) (isDev : Bool)
    (ip : Option String) (origin : Option String) :
    (origin = none →
      corsMiddleware (allowedOrigins cfg isDev ip) origin
        = CorsOutcome.allowed true) ∧
    (∀ o, origin = some o → o = "" →
      corsMiddleware (allowedOrigins cfg isDev ip) origin
        = CorsOutcome.allowed true) ∧
    (∀ o, origin = some o → o ≠ "" → o ∈ allowedOrigins cfg isDev ip →
      corsMiddleware (allowedOrigins cfg isDev ip) origin
        = CorsOutcome.allowed true) ∧
    (∀ o, origin = some o → o ≠ "" → o ∉ allowedOrigins cfg isDev ip →
      corsMiddleware (allowedOrigins cfg isDev ip) origin
        = CorsOutcome.rejected "Not allowed by CORS") := by
  refine ⟨?_, ?_, ?_, ?_⟩
  · intro h
    subst h
    simp [corsMiddleware, corsOriginDecision]
  · intro o h he
    subst h
    subst he
    simp [corsMiddleware, corsOriginDecision]
  · intro o h hne hmem
    subst h
    simp [corsMiddleware, corsOriginDecision, hne, hmem]
  · intro o h hne hmem
    subst h
    simp [corsMiddleware, corsOriginDecision, hne, hmem]

/-- Witness for the amended C6: the two halves of the scenario, an unknown
origin rejected and the production web origin allowed with credentials. -/
theorem cors_decision_witness :
    corsMiddleware allowedSample (some "https://evil.example")
      = CorsOutcome.rejected "Not allowed by CORS" ∧
    corsMiddleware allowedSample (some "https://openfront.io")
      = CorsOutcome.allowed true :=
  ⟨(cors_decision_cases "https://api.openfront.io" false none
      (some "https://evil.example")).2.2.2 "https://evil.example" rfl
      (by decide) (by decide),
    (cors_decision_cases "https://api.openfront.io" false none
      (some "https://openfront.io")).2.2.1 "https://openfront.io" rfl
      (by decide) (by decide)⟩

end OpenFrontAuth
